import Mathlib

/-!
Verification of the mediabox media-library normalizer.

The definitions below are a shallow embedding of the Python sources:
- `src/scripts/media_update.py` (decision engine, filter-graph builder, executor),
- `src/scripts/media_database.py` (metadata cache),
- `src/scripts/file_lock.py` (advisory file lock).

Python strings are Lean `String`s; dictionary lookups with defaults become
`Option` fields with `getD`; loops that set boolean flags become `List.any`;
loops with `break` on the first hit become `List.find?`.  All definitions are
computable so that theorems can be checked on concrete inputs.
-/

set_option maxRecDepth 100000

namespace Mediabox

/-! ## Python string primitives

Re-implemented on `List Char` with structural recursion so that the kernel
can evaluate them (`String.map`, `String.replace` and `String.splitOn` from
core use well-founded loops that do not reduce definitionally). -/

/-- Python `str.lower()` (ASCII, which covers every string the scripts build). -/
def lowerStr (s : String) : String := ⟨s.data.map Char.toLower⟩

/-- Case-insensitive prefix test on character lists. -/
def ciPref : List Char → List Char → Bool
  | [], _ => true
  | _ :: _, [] => false
  | a :: as, b :: bs => (a.toLower == b.toLower) && ciPref as bs

/-- Case-sensitive prefix test on character lists (`pat.isPrefixOf l`). -/
def csPref : List Char → List Char → Bool
  | [], _ => true
  | _ :: _, [] => false
  | a :: as, b :: bs => (a == b) && csPref as bs

/-- Substring containment, Python `pat in s` (case-sensitive). -/
def containsSubAux (pat : List Char) : List Char → Bool
  | [] => csPref pat []
  | c :: rest => csPref pat (c :: rest) || containsSubAux pat rest

/-- Python `pat in s`. -/
def containsSub (s pat : String) : Bool := containsSubAux pat.data s.data

/-- One step of Python `str.replace`: fuel-based so the kernel evaluates it. -/
def replaceAllAux (pat rep : List Char) : Nat → List Char → List Char
  | _, [] => []
  | 0, l => l
  | fuel + 1, c :: rest =>
    if csPref pat (c :: rest) then
      rep ++ replaceAllAux pat rep fuel ((c :: rest).drop pat.length)
    else
      c :: replaceAllAux pat rep fuel rest

/-- Python `s.replace(pat, rep)` for a non-empty pattern. -/
def replaceAll (s pat rep : String) : String :=
  ⟨replaceAllAux pat.data rep.data s.data.length s.data⟩

/-- Python `s.endswith(suffix)` after the script has lower-cased `s`. -/
def lowerEndsWith (s suffix : String) : Bool :=
  List.isSuffixOf suffix.data (lowerStr s).data

/-- Split a character list on a separator character (Python `str.split(sep)`). -/
def splitCharAux (sep : Char) : List Char → List Char → List String
  | acc, [] => [⟨acc.reverse⟩]
  | acc, c :: rest =>
    if c == sep then ⟨acc.reverse⟩ :: splitCharAux sep [] rest
    else splitCharAux sep (c :: acc) rest

/-- Python `s.split(sep)` for a single-character separator. -/
def splitChar (sep : Char) (s : String) : List String := splitCharAux sep [] s.data

/-- Python `int(s)` restricted to an optional sign followed by decimal digits
(the only shapes the scripts ever feed it); `none` models `ValueError`. -/
def pyIntOfString (s : String) : Option Int :=
  let digits (l : List Char) : Option Nat :=
    if l.isEmpty then none
    else if l.all Char.isDigit then
      some (l.foldl (fun acc c => acc * 10 + (c.toNat - '0'.toNat)) 0)
    else none
  match s.data with
  | '-' :: rest => (digits rest).map (fun n => -(n : Int))
  | '+' :: rest => (digits rest).map (fun n => (n : Int))
  | l => (digits l).map (fun n => (n : Int))

/-! ## Data model: probes and streams

`ffmpeg.probe` JSON decoded the way `media_update.py` reads it.  Fields read
with `stream.get(key, default)` are `Option`s; `tags` sub-dictionary lookups
are flattened into optional fields. -/

structure Stream where
  index : Nat
  codec_type : String
  codec_name : String := ""
  channels : Option Int := none
  channel_layout : Option String := none
  /-- Field `tags.language` of the stream. -/
  language : Option String := none
  /-- Field `tags.title` of the stream. -/
  title : Option String := none
  width : Option Int := none
  height : Option Int := none
  pix_fmt : Option String := none
  color_transfer : Option String := none
  color_primaries : Option String := none
  color_space : Option String := none
  /-- Flag `disposition.forced == 1`. -/
  forced : Bool := false
  /-- Values `side_data_list[*].side_data_type`. -/
  side_data_types : List String := []
deriving Repr, DecidableEq

/-- A probe is its ordered stream list (the `format` section plays no role in
the claims under study). -/
abbrev Probe := List Stream

/-- Python `stream.get('tags', \x7b\x7d).get('language', '').lower()`. -/
def streamLang (s : Stream) : String := lowerStr (s.language.getD "")

/-- Python `stream.get('tags', \x7b\x7d).get('title', '')`. -/
def streamTitle (s : Stream) : String := s.title.getD ""

/-- Python `int(stream.get('channels', 0))`. -/
def streamChannels (s : Stream) : Int := s.channels.getD 0

/-- Python `stream.get('channel_layout', 'unknown')`. -/
def layoutDUnknown (s : Stream) : String := s.channel_layout.getD "unknown"

/-- Python `stream.get('channel_layout', '')`. -/
def layoutDEmpty (s : Stream) : String := s.channel_layout.getD ""

/-- First video stream of the probe (`next((s for s in streams if ...), None)`). -/
def firstVideo (probe : Probe) : Option Stream :=
  probe.find? (fun s => s.codec_type == "video")

/-- First audio stream of the probe. -/
def firstAudio (probe : Probe) : Option Stream :=
  probe.find? (fun s => s.codec_type == "audio")

/-- Constants from `media_update.py` (AAC settings and track-title templates). -/
def AAC_QUALITY_VBR : String := "2"
def AAC_BITRATE_CBR : String := "192k"
def CENTER_BOOST : String := "0.5"
def FRONT_MIX : String := "0.35"
def SURROUND_MIX : String := "0.25"
def COMPRESSOR_RATIO : String := "6"
def COMPRESSOR_THRESHOLD : String := "0.1"
def COMPRESSOR_ATTACK : String := "20"
def COMPRESSOR_RELEASE : String := "250"

def ENHANCED_STEREO_TITLE : String :=
  "English Stereo (C" ++ CENTER_BOOST ++ "-R" ++ COMPRESSOR_RATIO ++ "-AAC-VBR" ++
    AAC_QUALITY_VBR ++ ")"
def FORCE_STEREO_TITLE : String :=
  "English Stereo (Dialogue-C" ++ CENTER_BOOST ++ "-R" ++ COMPRESSOR_RATIO ++ "-AAC-VBR" ++
    AAC_QUALITY_VBR ++ ")"
def STANDARD_STEREO_TITLE : String :=
  "English Stereo (AAC-CBR" ++ AAC_BITRATE_CBR ++ ")"

/-- The enhanced-stereo signature `C{CENTER_BOOST}-R{COMPRESSOR_RATIO}` of line 1281. -/
def currentSettingsPattern : String := "C" ++ CENTER_BOOST ++ "-R" ++ COMPRESSOR_RATIO

/-! ## Surround selection (`build_ffmpeg_command`, lines 1197-1249) -/

/-- Surround candidates: `(index, lang)` of audio streams with `channels >= 6`,
in probe order. -/
def surroundCandidates (probe : Probe) : List (Nat × String) :=
  (probe.filter (fun s => s.codec_type == "audio" && streamChannels s ≥ 6)).map
    (fun s => (s.index, streamLang s))

/-- The selected surround stream index: first English candidate, else first
candidate with an empty language tag, else none (lines 1224-1249). -/
def surroundIdx (probe : Probe) : Option Nat :=
  match (surroundCandidates probe).find? (fun c => c.2 == "eng") with
  | some c => some c.1
  | none =>
    match (surroundCandidates probe).find? (fun c => c.2 == "") with
    | some c => some c.1
    | none => none

/-! ## Surround analysis (`build_ffmpeg_command`, lines 1256-1329) -/

/-- Result of analysing the selected surround stream. -/
structure SurroundAnalysis where
  should_create_stereo : Bool := false
  should_create_51_from_71 : Bool := false
  surround_has_processable_layout : Bool := false
  surround_channels : Int := 0
deriving Repr, DecidableEq

/-- Existing-track flags computed while scanning the other audio streams
(lines 1270-1288). -/
def hasExistingStereo (probe : Probe) (sidx : Nat) : Bool :=
  probe.any (fun o => o.codec_type == "audio" && o.index != sidx && streamChannels o == 2)

def hasExistingEnhancedStereo (probe : Probe) (sidx : Nat) : Bool :=
  probe.any (fun o =>
    o.codec_type == "audio" && o.index != sidx && streamChannels o == 2 &&
      (containsSub (streamTitle o) currentSettingsPattern ||
        containsSub (streamTitle o) ("Dialogue-" ++ currentSettingsPattern)))

def hasExisting51 (probe : Probe) (sidx : Nat) : Bool :=
  probe.any (fun o => o.codec_type == "audio" && o.index != sidx && streamChannels o == 6)

/-- Lines 1262-1329: what extra tracks to create from the selected surround
stream (the loop finds the first stream with the selected index and breaks). -/
def analyzeSurround (probe : Probe) (sidx : Nat) (force_stereo : Bool) : SurroundAnalysis :=
  match probe.find? (fun s => s.index == sidx && s.codec_type == "audio") with
  | none => {}
  | some s =>
    let channel_layout := layoutDUnknown s
    let channels := streamChannels s
    let enhanced := hasExistingEnhancedStereo probe sidx
    let has51 := hasExisting51 probe sidx
    if channel_layout != "unknown" then
      { should_create_stereo := !enhanced || force_stereo
        should_create_51_from_71 := channels == 8 && !has51
        surround_has_processable_layout := true
        surround_channels := channels }
    else if channel_layout == "unknown" && channels == 6 then
      { should_create_stereo := !enhanced || force_stereo
        surround_has_processable_layout := true
        surround_channels := channels }
    else if channel_layout == "unknown" && channels == 8 then
      { surround_has_processable_layout := true
        surround_channels := channels }
    else
      { surround_channels := channels }

/-- Lines 1349-1356: the selected surround needs the channelmap fix iff its
layout is `unknown`/empty and it has exactly 6 channels. -/
def needsChannelmapFix (probe : Probe) (sidx : Nat) : Bool :=
  probe.any (fun s =>
    s.index == sidx && s.codec_type == "audio" &&
      (layoutDUnknown s == "unknown" || layoutDUnknown s == "") &&
      streamChannels s == 6)

/-- The channelmap filter scheduled for a 6-channel unknown layout (line 1367). -/
def channelmapFilter (sidx : Nat) : String :=
  "[0:" ++ toString sidx ++ "]channelmap=0-FL|1-FR|2-FC|3-LFE|4-BL|5-BR:5.1[fixed_surround]"

/-- The 7.1 → 5.1 downmix filter (lines 1404-1418). -/
def create51Filter (source : String) (alsoStereo : Bool) : String :=
  if alsoStereo then
    source ++ "pan=5.1|c0=c0|c1=c1|c2=c2|c3=c3|c4=c4+0.7*c6|c5=c5+0.7*c7[surround_51_tmp]; " ++
      "[surround_51_tmp]asplit=2[surround_51][for_stereo]"
  else
    source ++ "pan=5.1|c0=c0|c1=c1|c2=c2|c3=c3|c4=c4+0.7*c6|c5=c5+0.7*c7[surround_51]"

/-- The enhanced-stereo downmix + compressor filter (line 1437). -/
def stereoFilter (source : String) : String :=
  source ++ "pan=stereo|c0=" ++ FRONT_MIX ++ "*c0+" ++ CENTER_BOOST ++ "*c2+" ++
    SURROUND_MIX ++ "*c4|c1=" ++ FRONT_MIX ++ "*c1+" ++ CENTER_BOOST ++ "*c2+" ++
    SURROUND_MIX ++ "*c5,acompressor=level_in=1.5:threshold=" ++ COMPRESSOR_THRESHOLD ++
    ":ratio=" ++ COMPRESSOR_RATIO ++ ":attack=" ++ COMPRESSOR_ATTACK ++ ":release=" ++
    COMPRESSOR_RELEASE ++ "[aout]"

/-- Appending a leg to `filter_complex` (`fc[1] = fc[1] + '; ' + f`; the very
first leg just becomes the contents). -/
def addFilterLeg (fc : Option String) (f : String) : Option String :=
  match fc with
  | none => some f
  | some s => some (s ++ "; " ++ f)

/-- Title for the preserved surround, by channel count (lines 1390-1395). -/
def surroundTitleFor (channels : Int) : String :=
  if channels == 8 then "7.1 Surround"
  else if channels == 6 then "5.1 Surround"
  else "Surround"

/-- An audio stream acceptable for pass-through: `eng`, empty, or `und`
(lines 1468, 1496). -/
def langAcceptable (s : Stream) : Bool :=
  streamLang s == "eng" || streamLang s == "" || streamLang s == "und"

/-- The audio-mapping section of `build_ffmpeg_command` (lines 1251-1511):
returns `(audio_maps, audio_labels, filter_complex contents)`. -/
def audioSection (probe : Probe) (force_stereo : Bool) :
    List String × List String × Option String :=
  match surroundIdx probe with
  | some sidx =>
    let an := analyzeSurround probe sidx force_stereo
    let needsFix := needsChannelmapFix probe sidx
    -- surround mapping (lines 1358-1385)
    let surroundMap : List String :=
      if needsFix then ["-map", "[fixed_surround]"]
      else ["-map", "0:" ++ toString sidx]
    let fc0 : Option String := if needsFix then some (channelmapFilter sidx) else none
    let surroundLabels : List String :=
      ["-metadata:s:a:0", "title=" ++ surroundTitleFor an.surround_channels,
        "-metadata:s:a:0", "language=eng"]
    -- 5.1 creation (lines 1401-1429)
    let source51 := if needsFix then "[fixed_surround]" else "[0:" ++ toString sidx ++ "]"
    let src0 := source51
    let (maps51, labels51, fc1, srcStereo) :=
      if an.should_create_51_from_71 then
        (["-map", "[surround_51]"],
          ["-metadata:s:a:1", "title=5.1 Surround", "-metadata:s:a:1", "language=eng"],
          addFilterLeg fc0 (create51Filter source51 an.should_create_stereo),
          if an.should_create_stereo then "[for_stereo]" else "[surround_51]")
      else ([], [], fc0, src0)
    let nextIdx : Nat := if an.should_create_51_from_71 then 2 else 1
    -- stereo creation (lines 1431-1456)
    let (mapsSt, labelsSt, fc2) :=
      if an.should_create_stereo then
        (["-map", "[aout]"],
          ["-metadata:s:a:" ++ toString nextIdx,
            "title=" ++ (if force_stereo then FORCE_STEREO_TITLE else ENHANCED_STEREO_TITLE),
            "-metadata:s:a:" ++ toString nextIdx, "language=eng"],
          addFilterLeg fc1 (stereoFilter srcStereo))
      else ([], [], fc1)
    -- existing stereo pass-through (lines 1458-1485)
    let (mapsEx, labelsEx) :=
      if !an.should_create_stereo then
        match probe.find? (fun s =>
            s.codec_type == "audio" && streamChannels s == 2 && langAcceptable s) with
        | some s =>
          let cai : Nat := if an.should_create_51_from_71 then 2 else 1
          (["-map", "0:" ++ toString s.index],
            ["-metadata:s:a:" ++ toString cai, "title=" ++ STANDARD_STEREO_TITLE,
              "-metadata:s:a:" ++ toString cai, "language=eng"])
        | none => ([], [])
      else ([], [])
    (surroundMap ++ maps51 ++ mapsSt ++ mapsEx,
      surroundLabels ++ labels51 ++ labelsSt ++ labelsEx, fc2)
  | none =>
    -- fallback: first English/unlabeled audio stream (lines 1487-1511)
    match probe.find? (fun s => s.codec_type == "audio" && langAcceptable s) with
    | some s =>
      (["-map", "0:" ++ toString s.index],
        ["-metadata:s:a:0", "title=" ++ STANDARD_STEREO_TITLE,
          "-metadata:s:a:0", "language=eng"], none)
    | none => ([], [], none)

/-! ## Subtitle section (lines 1191-1221, 1513-1522) -/

/-- Text-based subtitle codecs muxable into MP4. -/
def textSubCodecs : List String := ["subrip", "srt", "ass", "ssa", "mov_text"]

/-- One pass over the streams collecting `(counter, lang_metadata, forced, eng)`. -/
def subtitleScan (probe : Probe) : Nat × List String × List Nat × List Nat :=
  probe.foldl
    (fun (acc : Nat × List String × List Nat × List Nat) s =>
      let (counter, meta, forced, engs) := acc
      if s.codec_type == "subtitle" then
        let codec := lowerStr s.codec_name
        if textSubCodecs.contains codec then
          let lang := streamLang s
          let meta' := if lang == "" then
              meta ++ ["-metadata:s:s:" ++ toString counter, "language=eng"]
            else meta
          let forced' := if s.forced then forced ++ [s.index] else forced
          let engs' := if lang == "eng" then engs ++ [s.index] else engs
          (counter + 1, meta', forced', engs')
        else if codec == "hdmv_pgs_subtitle" then
          (counter + 1, meta, forced, engs)
        else acc
      else acc)
    (0, [], [], [])

/-- First-occurrence de-duplication standing in for `list(set(...))` (CPython's
iteration order over a set of small ints is implementation-defined; no claim
under study depends on this order). -/
def dedupNatAux (seen : List Nat) : List Nat → List Nat
  | [] => []
  | x :: xs =>
    if seen.contains x then dedupNatAux seen xs
    else x :: dedupNatAux (x :: seen) xs

def dedupNat (l : List Nat) : List Nat := dedupNatAux [] l

/-- Computes `(subtitle_maps, subtitle_codecs, subtitle_lang_metadata)` (lines 1513-1522). -/
def subtitleSection (probe : Probe) : List String × List String × List String :=
  let (_, meta, forced, engs) := subtitleScan probe
  let idxs := dedupNat (forced ++ engs)
  let maps := idxs.flatMap (fun i => ["-map", "0:" ++ toString i])
  let codecs := (List.range idxs.length).flatMap
    (fun n => ["-c:s:" ++ toString n, "mov_text"])
  (maps, codecs, meta)

/-! ## HDR detection (`detect_hdr_video`, lines 371-455) -/

structure HdrInfo where
  is_hdr : Bool := false
  hdr_type : Option String := none
  color_transfer : Option String := none
  color_primaries : Option String := none
  color_space : Option String := none
  pix_fmt : Option String := none
  bit_depth : Nat := 8
deriving Repr, DecidableEq

def detectHdrVideo (probe : Probe) : HdrInfo :=
  match firstVideo probe with
  | none => {}
  | some v =>
    let ct := v.color_transfer.getD ""
    let cp := v.color_primaries.getD ""
    let cs := v.color_space.getD ""
    let pf := v.pix_fmt.getD ""
    let bitDepth : Nat :=
      if containsSub pf "10le" || containsSub pf "10be" || containsSub pf "p10" then 10
      else if containsSub pf "12le" || containsSub pf "12be" || containsSub pf "p12" then 12
      else 8
    let (isHdr, hdrType) : Bool × Option String :=
      if ct == "smpte2084" then (true, some "HDR10")
      else if ct == "arib-std-b67" then (true, some "HLG")
      else if cp == "bt2020" && bitDepth > 8 then (true, some "HDR (BT.2020)")
      else (false, none)
    let (isHdr, hdrType) :=
      if v.side_data_types.contains "DOVI configuration record" then
        (true, some "Dolby Vision")
      else (isHdr, hdrType)
    { is_hdr := isHdr, hdr_type := hdrType, color_transfer := some ct,
      color_primaries := some cp, color_space := some cs, pix_fmt := some pf,
      bit_depth := bitDepth }

/-! ## Tone-map filter (`build_hdr_tonemap_filter`, lines 457-498) -/

/-- The six tone-mapping stages, in emission order. -/
def tonemapStages : List String :=
  ["zscale=t=linear:npl=100", "format=gbrpf32le", "zscale=p=bt709",
    "tonemap=tonemap=hable:desat=0", "zscale=t=bt709:m=bt709:r=tv", "format=yuv420p"]

/-- Python `','.join`. -/
def joinComma : List String → String
  | [] => ""
  | x :: xs => xs.foldl (fun a b => a ++ "," ++ b) x

/-- Line 492: the scaling leg is rewritten before being appended
(`scale=-2:1080` becomes `scale=w=-2:h=1080`). -/
def transformScaleLeg (sf : String) : String :=
  replaceAll (replaceAll sf "scale=" "scale=w=") ":" ":h="

def buildHdrTonemapFilter (hdr : HdrInfo) (scale_filter : Option String) : Option String :=
  if !hdr.is_hdr then scale_filter
  else
    some (joinComma (tonemapStages ++
      match scale_filter with
      | some sf => [transformScaleLeg sf]
      | none => []))

/-! ## Scale decision and video args (lines 1524-1605) -/

/-- Lines 1530-1547: the scale filter when `downgrade_resolution` is set. -/
def scaleDecision (probe : Probe) (downgrade : Bool) : Option String :=
  if downgrade then
    match firstVideo probe with
    | some v =>
      if v.height.getD 0 > 1080 then some "scale=-2:1080"
      else if v.width.getD 0 > 1920 then some "scale=1920:-2"
      else none
    | none => none
  else none

/-- Result of `detect_hardware_acceleration()` (environment-dependent; a
parameter of the embedding). -/
structure Hwaccel where
  method : String := "software"
  encoder : String := "libx264"
  extra_args : List String := []
deriving Repr, DecidableEq

/-- The `video_args` selection (lines 1549-1605). -/
def videoArgsFor (probe : Probe) (hw : Hwaccel) (downgrade : Bool) : List String :=
  if (detectHdrVideo probe).is_hdr then
    match buildHdrTonemapFilter (detectHdrVideo probe) (scaleDecision probe downgrade) with
    | some vf =>
      if vf != "" then ["-c:v", "libx264", "-vf", vf, "-crf", "23", "-preset", "medium"]
      else ["-c:v", "libx264", "-crf", "23", "-preset", "medium"]
    | none => ["-c:v", "libx264", "-crf", "23", "-preset", "medium"]
  else if hw.method == "vaapi" then
    ["-c:v", hw.encoder] ++
      (match scaleDecision probe downgrade with
        | some sf =>
          ["-vaapi_device", "/dev/dri/renderD128", "-vf", sf ++ ",format=nv12,hwupload"]
        | none => hw.extra_args) ++ ["-qp", "23"]
  else if hw.method == "software_optimized" then
    ["-c:v", hw.encoder] ++
      (hw.extra_args ++ (match scaleDecision probe downgrade with
        | some sf => ["-vf", sf]
        | none => [])) ++ ["-crf", "23"]
  else
    ["-c:v", "libx264"] ++
      (match scaleDecision probe downgrade with
        | some sf => ["-vf", sf]
        | none => []) ++ ["-crf", "23", "-preset", "fast"]

/-! ## Per-stream audio codec args (lines 1612-1669) -/

/-- Codec/layout args for one directly-mapped input stream (lines 1620-1653). -/
def directMapCodecArgs (probe : Probe) (spec : String) (t : Nat) :
    List String × List String :=
  match (splitChar ':' spec).get? 1 with
  | none => ([], [])
  | some part =>
    match pyIntOfString part with
    | none => ([], [])
    | some n =>
      match probe.find? (fun s => (s.index : Int) == n && s.codec_type == "audio") with
      | none => ([], [])
      | some s =>
        let ol := layoutDEmpty s
        if ol == "unknown" || ol == "" then
          if s.channels.getD 0 == 6 then
            (["-c:a:" ++ toString t, "aac", "-b:a:" ++ toString t, AAC_BITRATE_CBR], [])
          else (["-c:a:" ++ toString t, "copy"], [])
        else
          let nl := if ol == "5.1(side)" then "5.1"
            else if ol == "7.1(wide)" then "7.1" else ol
          (["-c:a:" ++ toString t, "aac", "-b:a:" ++ toString t, AAC_BITRATE_CBR],
            ["-ch_layout:a:" ++ toString t, nl])

/-- Codec/layout args for one filter-output mapping (lines 1654-1669). -/
def filterMapCodecArgs (spec : String) (t : Nat) : List String × List String :=
  let codec :=
    if spec == "[aout]" then
      ["-c:a:" ++ toString t, "aac", "-q:a:" ++ toString t, AAC_QUALITY_VBR]
    else ["-c:a:" ++ toString t, "aac", "-b:a:" ++ toString t, AAC_BITRATE_CBR]
  let layout :=
    if spec == "[surround_51]" then ["-ch_layout:a:" ++ toString t, "5.1"]
    else if spec == "[aout]" then ["-ch_layout:a:" ++ toString t, "stereo"]
    else []
  (codec, layout)

/-- The loop over `audio_maps` pairs (lines 1617-1669).  A parse failure inside
the `try` skips the pair without advancing `output_audio_idx`. -/
def codecArgsAux (probe : Probe) : List String → Nat → List String × List String
  | [], _ => ([], [])
  | [_], _ => ([], [])
  | a :: b :: rest, t =>
    if a == "-map" then
      if csPref "0:".data b.data && !csPref "[".data b.data then
        match (splitChar ':' b).get? 1 with
        | none => codecArgsAux probe rest t
        | some part =>
          match pyIntOfString part with
          | none => codecArgsAux probe rest t
          | some _ =>
            let (c, l) := directMapCodecArgs probe b t
            let (cs, ls) := codecArgsAux probe rest (t + 1)
            (c ++ cs, l ++ ls)
      else if csPref "[".data b.data then
        let (c, l) := filterMapCodecArgs b t
        let (cs, ls) := codecArgsAux probe rest (t + 1)
        (c ++ cs, l ++ ls)
      else codecArgsAux probe rest t
    else codecArgsAux probe rest t

/-! ## Command assembly (lines 1671-1686) -/

/-- Materialize `*filter_complex` in the argument list. -/
def fcArgs : Option String → List String
  | some s => ["-filter_complex", s]
  | none => []

/-- The argument groups emitted before `video_args` (line 1671 onward). -/
def commandPrefixArgs (probe : Probe) (force_stereo : Bool) : List String :=
  let (audio_maps, audio_labels, fc) := audioSection probe force_stereo
  let (sub_maps, sub_codecs, sub_lang) := subtitleSection probe
  ["-map", "0:v:0"] ++ fcArgs fc ++ audio_maps ++ audio_labels ++ sub_maps ++
    sub_codecs ++ sub_lang

/-- The argument groups emitted after `video_args`. -/
def commandSuffixArgs (probe : Probe) (force_stereo : Bool) : List String :=
  let (audio_maps, _, _) := audioSection probe force_stereo
  let (acodec, alayout) := codecArgsAux probe audio_maps 0
  acodec ++ alayout ++ ["-y", "-movflags", "faststart"]

/-- Function `build_ffmpeg_command`: the argument list (without `ffmpeg -i input`) and
the `has_audio` flag. -/
def buildFfmpegCommand (probe : Probe) (force_stereo downgrade : Bool) (hw : Hwaccel) :
    List String × Bool :=
  (commandPrefixArgs probe force_stereo ++ videoArgsFor probe hw downgrade ++
      commandSuffixArgs probe force_stereo,
    !(audioSection probe force_stereo).1.isEmpty)

/-! ## Skip decision (`transcode_file`, lines 1817-1909) -/

/-- Python `next((s for s in streams if video), None)`, the first video codec (line 1819). -/
def vcodecOf (probe : Probe) : Option String := (firstVideo probe).map (·.codec_name)

/-- Python `all(codec == 'aac' for codec in audio_codecs)` (vacuously true when there
is no audio, as in the source). -/
def allAac (probe : Probe) : Bool :=
  ((probe.filter (fun s => s.codec_type == "audio")).map (·.codec_name)).all
    (fun c => c == "aac")

/-- Track-presence flags from the scan at lines 1830-1846. -/
def hasStereo (probe : Probe) : Bool :=
  probe.any (fun s => s.codec_type == "audio" && streamChannels s == 2)

def has51 (probe : Probe) : Bool :=
  probe.any (fun s => s.codec_type == "audio" && streamChannels s == 6)

def has71 (probe : Probe) : Bool :=
  probe.any (fun s => s.codec_type == "audio" && streamChannels s == 8)

def hasProcessableSurround (probe : Probe) : Bool :=
  probe.any (fun s => s.codec_type == "audio" &&
    (streamChannels s == 6 || streamChannels s == 8) && layoutDUnknown s != "unknown")

/-- Lines 1850-1862: an existing 2-channel track whose title carries the
current enhanced-stereo signature. -/
def hasEnhancedStereo (probe : Probe) : Bool :=
  hasStereo probe &&
    probe.any (fun s => s.codec_type == "audio" && streamChannels s == 2 &&
      (containsSub (streamTitle s) currentSettingsPattern ||
        containsSub (streamTitle s) ("Dialogue-" ++ currentSettingsPattern)))

/-- Line 1864. -/
def needsStereoTrack (probe : Probe) (force_stereo : Bool) : Bool :=
  hasProcessableSurround probe && (!hasEnhancedStereo probe || force_stereo)

/-- Line 1865. -/
def needs51From71 (probe : Probe) : Bool :=
  has71 probe && !has51 probe && hasProcessableSurround probe

/-- Lines 1867-1884: an unlabeled (`''`/`und`) audio stream needs an English
language tag. -/
def needsAudioMetadataFix (probe : Probe) : Bool :=
  probe.any (fun s => s.codec_type == "audio" &&
    (streamLang s == "" || streamLang s == "und"))

/-- Lines 1867-1884: a stream tagged with a language other than `eng`/`und`. -/
def hasNonEnglishAudio (probe : Probe) : Bool :=
  probe.any (fun s => s.codec_type == "audio" &&
    streamLang s != "" && streamLang s != "eng" && streamLang s != "und")

/-- Lines 1886-1902: resolution downgrade needed (first video stream only). -/
def needsResolutionDowngrade (probe : Probe) (downgrade : Bool) : Bool :=
  downgrade &&
    (match firstVideo probe with
      | some v => v.height.getD 0 > 1080 || v.width.getD 0 > 1920
      | none => false)

/-- The skip condition of lines 1904-1906: the file is left untouched iff this
conjunction holds. -/
def skipDecision (probe : Probe) (input_file : String) (force_stereo downgrade : Bool) :
    Bool :=
  decide (vcodecOf probe = some "h264") && allAac probe &&
    (lowerEndsWith input_file ".mp4" || lowerEndsWith input_file ".mkv") &&
    !needsStereoTrack probe force_stereo && !needs51From71 probe &&
    !needsAudioMetadataFix probe && !hasNonEnglishAudio probe && !force_stereo &&
    !needsResolutionDowngrade probe downgrade

/-! ## Filename resolution rewrite (`update_filename_resolution`, lines
1014-1058, and `RESOLUTION_PATTERNS`, lines 357-366)

The patterns are case-insensitive regexes over the filename stem.  They are
embedded as explicit scanners: `\b` is a transition between word and non-word
characters, alternatives are tried in the regex's order, and `p?` is expanded
greedily (`2160p` before `2160`), exactly as the backtracking engine does. -/

/-- Python `\w` (ASCII range, which covers the stems the tool handles). -/
def isWordChar (c : Char) : Bool := c.isAlpha || c.isDigit || c == '_'

/-- No word character follows ⇒ `\b` holds after a match ending in a word
character (every alternative below ends in one). -/
def boundaryAfter : List Char → Bool
  | [] => true
  | c :: _ => !isWordChar c

/-- Try the alternatives in order at the current position; each must be a
case-insensitive prefix and be followed by a word boundary. -/
def tryAlts (alts : List (List Char)) (l : List Char) : Option Nat :=
  match alts with
  | [] => none
  | a :: more =>
    if ciPref a l && boundaryAfter (l.drop a.length) then some a.length
    else tryAlts more l

/-- Python `re.sub` of a word-bounded alternation, case-insensitive, for alternatives
that start and end with word characters.  `prevWord` tracks whether the
preceding character is a word character (so `\b` holds at the current position
iff `!prevWord`); after a match it is a word character, hence `true`. -/
def subWordAux (alts : List (List Char)) (rep : List Char) :
    Nat → Bool → List Char → List Char
  | _, _, [] => []
  | 0, _, l => l
  | fuel + 1, prevWord, c :: rest =>
    if !prevWord then
      match tryAlts alts (c :: rest) with
      | some n => rep ++ subWordAux alts rep fuel true ((c :: rest).drop n)
      | none => c :: subWordAux alts rep fuel (isWordChar c) rest
    else c :: subWordAux alts rep fuel (isWordChar c) rest

def subWord (alts : List String) (rep : String) (s : String) : String :=
  ⟨subWordAux (alts.map String.data) rep.data s.data.length false s.data⟩

/-- Group-2 match for the fourth pattern `\.(4K|UHD|2160p?)\.(mkv|mp4|avi)`. -/
def tryDotExts (exts : List (List Char)) (r3 : List Char) : Option (List Char) :=
  match exts with
  | [] => none
  | e :: more => if ciPref e r3 then some (r3.take e.length) else tryDotExts more r3

def tryDotAlts (alts exts : List (List Char)) (rest : List Char) :
    Option (Nat × List Char) :=
  match alts with
  | [] => none
  | a :: more =>
    let attempt : Option (Nat × List Char) :=
      if ciPref a rest then
        match rest.drop a.length with
        | '.' :: r3 =>
          match tryDotExts exts r3 with
          | some g2 => some (1 + a.length + 1 + g2.length, g2)
          | none => none
        | _ => none
      else none
    match attempt with
    | some r => some r
    | none => tryDotAlts more exts rest

def resAlt4 : List (List Char) := ["4K".data, "UHD".data, "2160p".data, "2160".data]
def extAlt4 : List (List Char) := ["mkv".data, "mp4".data, "avi".data]

/-- The fourth pattern: `re.sub` of a dot-delimited resolution token, case-insensitive;
the back-reference keeps the matched extension's original case. -/
def subDotAux : Nat → List Char → List Char
  | _, [] => []
  | 0, l => l
  | fuel + 1, c :: rest =>
    match (if c == '.' then tryDotAlts resAlt4 extAlt4 rest else none) with
    | some (n, g2) => ".1080p.".data ++ g2 ++ subDotAux fuel ((c :: rest).drop n)
    | none => c :: subDotAux fuel rest

def subDot (s : String) : String := ⟨subDotAux s.data.length s.data⟩

/-- The four `RESOLUTION_PATTERNS` applied in order (lines 1032-1038; the
first three replacements are rewritten to the target resolution). -/
def resolutionPatternsApply (target : String) (name : String) : String :=
  let u1 := subWord ["4K", "UHD", "2160p", "2160"] target name
  let u2 := subWord ["1440p", "1440"] target u1
  let u3 := subWord ["1800p", "1800", "1620p", "1620", "1200p", "1200"] target u2
  subDot u3

/-- Leftmost match position of
`(\b(?:WEBDL|WEB-DL|BluRay|BDRip|DVDRip|HDRip)\b)` (line 1044). -/
def findQualityAux (alts : List (List Char)) (prevWord : Bool) (pos : Nat) :
    List Char → Option Nat
  | [] => none
  | c :: rest =>
    if !prevWord && (tryAlts alts (c :: rest)).isSome then some pos
    else findQualityAux alts (isWordChar c) (pos + 1) rest

def findQuality (s : String) : Option Nat :=
  findQualityAux
    ["WEBDL".data, "WEB-DL".data, "BluRay".data, "BDRip".data, "DVDRip".data,
      "HDRip".data] false 0 s.data

/-- The stem transformation of `update_filename_resolution` (lines 1032-1051):
apply the patterns; if nothing changed, insert the target before the first
quality tag, or append it. -/
def updateStem (target name : String) : String :=
  if resolutionPatternsApply target name == name then
    match findQuality name with
    | some pos => ⟨name.data.take pos ++ (target ++ " ").data ++ name.data.drop pos⟩
    | none => name ++ " " ++ target
  else resolutionPatternsApply target name

/-! ## File lock (`file_lock.py`)

Pure model over the sidecar state: `Option LockData` is the lock file's
contents (`none` = absent).  Functions return the result together with the
post-state of the sidecar, making deletions visible. -/

structure LockData where
  lock_id : String := ""
  hostname : String := ""
  pid : Int := 0
  timestamp : Int := 0
deriving Repr, DecidableEq

/-- Method `_is_lock_stale` (lines 167-187): stale iff missing data or older than the
instance's `timeout` (which `media_update.py` sets to 1800 seconds). -/
def isLockStale (timeout now : Int) (lockData : Option LockData) : Bool :=
  match lockData with
  | none => true
  | some d => now - d.timestamp > timeout

/-- Method `is_locked` (lines 314-332): reads the sidecar; a stale lock is REMOVED
and reported as unlocked.  Returns `(result, sidecar after the call)`. -/
def isLockedRun (timeout now : Int) (fileState : Option LockData) :
    Bool × Option LockData :=
  match fileState with
  | none => (false, none)
  | some d =>
    if isLockStale timeout now (some d) then (false, none)
    else (true, some d)

/-- Method `_cleanup_stale_lock(max_age_seconds=21600)` (lines 109-131): deletes the
sidecar only when older than `max_age_seconds`. -/
def cleanupStaleLock (maxAge now : Int) (fileState : Option LockData) :
    Option LockData :=
  match fileState with
  | none => none
  | some d => if now - d.timestamp > maxAge then none else some d

/-- Method `acquire(wait=False)` (lines 234-259): 6-hour cleanup, then create if
absent, else consult `get_lock_info()` (which runs `is_locked`, evicting
locks older than `timeout`) and report not-acquired.  Returns
`(acquired, sidecar after the call)`. -/
def acquireNoWait (timeout now : Int) (ourId : String) (fileState : Option LockData) :
    Bool × Option LockData :=
  let st1 := cleanupStaleLock 21600 now fileState
  match st1 with
  | none =>
    (true, some { lock_id := ourId, timestamp := now })
  | some d =>
    let (locked, st2) := isLockedRun timeout now (some d)
    if locked && d.lock_id == ourId then (true, st2)
    else (false, st2)

/-! ## Metadata cache (`media_database.py`) -/

def MEDIA_DATABASE_VERSION : String := "1.0.0"

/-- One cache entry (the fields `get_cached_probe` and the claims read). -/
structure CacheEntry where
  codec_video : Option String := none
  codec_audio : Option String := none
  width : Option Int := none
  height : Option Int := none
  audio_channels : Option String := none
  audio_layout : Option String := none
  color_transfer : Option String := none
  color_primaries : Option String := none
  color_space : Option String := none
  action : Option String := none
  processing_version : Option String := none
  processing_error : Option String := none
  last_processed : Option String := none
deriving Repr, DecidableEq

/-- Python truthiness of `entry.get(key)` for a string field. -/
def truthyOpt (o : Option String) : Bool := o.getD "" != ""

/-- Probe reconstruction from one entry (`get_cached_probe`, lines 159-196):
at most a video stream (index 0, `pix_fmt` hard-coded to `yuv420p`) and an
audio stream (index 1).  `none` models the `ValueError` that
`int(entry.get('audio_channels', '2').split('.')[0])` may raise. -/
def cachedVideoStreams (entry : CacheEntry) : List Stream :=
  if truthyOpt entry.codec_video then
    [{ index := 0, codec_type := "video", codec_name := entry.codec_video.getD "",
        width := entry.width, height := entry.height, pix_fmt := some "yuv420p",
        color_transfer := some (entry.color_transfer.getD ""),
        color_primaries := some (entry.color_primaries.getD ""),
        color_space := some (entry.color_space.getD "") }]
  else []

def reconstructProbe (entry : CacheEntry) : Option Probe :=
  if truthyOpt entry.codec_audio then
    match pyIntOfString (((splitChar '.' (entry.audio_channels.getD "2")).headD "")) with
    | none => none
    | some n =>
      some (cachedVideoStreams entry ++
        [{ index := 1, codec_type := "audio", codec_name := entry.codec_audio.getD "",
            channels := some n,
            channel_layout := some (entry.audio_layout.getD "stereo") }])
  else some (cachedVideoStreams entry)

/-- Method `get_cached_probe` (lines 132-196) over the loaded directory cache (an
association list; the empty list models an absent, empty or unreadable cache
file, all of which `_load_cache` turns into `{}`). -/
def getCachedProbe (fingerprint : Option String)
    (cacheData : List (String × CacheEntry)) : Option Probe :=
  match fingerprint with
  | none => none
  | some h =>
    if cacheData.isEmpty then none
    else
      match cacheData.lookup h with
      | none => none
      | some entry => reconstructProbe entry

/-- Method `has_cached_probe` (lines 102-130). -/
def hasCachedProbe (fingerprint : Option String)
    (cacheData : List (String × CacheEntry)) : Bool :=
  match fingerprint with
  | none => false
  | some h =>
    if cacheData.isEmpty then false
    else
      match cacheData.lookup h with
      | none => false
      | some entry => truthyOpt entry.codec_video

/-- The failure branch of `update_after_conversion` (lines 420-424): the entry
is kept, with `processing_error` and `last_processed` set. -/
def updateEntryFailure (entry : CacheEntry) (errorMessage nowIso : String) : CacheEntry :=
  { entry with processing_error := some errorMessage, last_processed := some nowIso }

/-! ## Transcode executor, encoder-exit handling (`transcode_file`,
lines 1975-2065)

The observable actions of the branch on the encoder's exit status, in program
order.  `removeTempFile` and `recordProcessingError` are in the vocabulary
because the spec names them; the definition emits exactly what the code does. -/

inductive ExecEffect where
  | clearUnfinished
  | removeExistingFinal
  | renameTempToFinal
  | renameSupportingFiles
  | dbUpdateSuccess
  | appendToBatch
  | removeSourceFile
  | logFailure
  | removeTempFile
  | recordProcessingError
  | releaseLock
deriving Repr, DecidableEq

/-- Lines 1975-2065: on exit code 0 the temp is renamed into place, the cache
is updated with a success record, the output joins the batch list and the
source is removed when distinct; on a nonzero exit the failure is logged.  The
`finally` releases the lock on both paths.  The function returning (rather
than raising) models that the caller's batch loop continues either way. -/
def encoderExitEffects (returncode : Int)
    (outputNeFinal finalExists resolutionRenamed inputNeFinal : Bool) :
    List ExecEffect :=
  (if returncode == 0 then
    [ExecEffect.clearUnfinished] ++
      (if outputNeFinal then
        (if finalExists then [ExecEffect.removeExistingFinal] else []) ++
          [ExecEffect.renameTempToFinal] ++
          (if resolutionRenamed then [ExecEffect.renameSupportingFiles] else [])
      else []) ++
      [ExecEffect.dbUpdateSuccess, ExecEffect.appendToBatch] ++
      (if inputNeFinal then [ExecEffect.removeSourceFile] else [])
  else [ExecEffect.logFailure]) ++ [ExecEffect.releaseLock]

/-! # Theorems -/

/-! ## C6 — lock staleness in the 30-minute-to-6-hour window -/

/-- A sidecar written by another worker two hours ago. -/
def lockC6 : LockData :=
  { lock_id := "otherhost_4242_deadbeef", hostname := "otherhost", pid := 4242,
    timestamp := 0 }

/-- C6 counterexample: for a sidecar aged 2 hours (within the claimed
30-minute-to-6-hour "live" window, with `media_update.py`'s
`timeout=1800`), `is_locked()` returns `false` and DELETES the sidecar —
the claim said it returns true and nothing deletes it. -/
theorem mediabox_c6_counterexample :
    1800 < (7200 : Int) - lockC6.timestamp ∧ (7200 : Int) - lockC6.timestamp ≤ 21600 ∧
      isLockedRun 1800 7200 (some lockC6) = (false, none) := by
  decide

/-- C6 amended: a sidecar older than the configured 30-minute timeout but
younger than 6 hours is kept by `acquire`'s dedicated 6-hour cleanup step,
but `is_locked()` treats it as stale — it deletes the sidecar and returns
false — and `acquire(wait=False)` (which consults `is_locked` through
`get_lock_info`) therefore also deletes it and reports not-acquired. -/
theorem mediabox_c6_amended (d : LockData) (now : Int)
    (h1 : 1800 < now - d.timestamp) (h2 : now - d.timestamp ≤ 21600) :
    cleanupStaleLock 21600 now (some d) = some d ∧
      isLockedRun 1800 now (some d) = (false, none) ∧
      ∀ ourId, acquireNoWait 1800 now ourId (some d) = (false, none) := by
  have hstale : isLockStale 1800 now (some d) = true := by
    simp only [isLockStale, decide_eq_true_eq]
    omega
  have hkeep : cleanupStaleLock 21600 now (some d) = some d := by
    simp only [cleanupStaleLock, ite_eq_right_iff]
    intro hgt
    omega
  have hlocked : isLockedRun 1800 now (some d) = (false, none) := by
    simp [isLockedRun, hstale]
  refine ⟨hkeep, hlocked, fun ourId => ?_⟩
  simp [acquireNoWait, hkeep, hlocked]

/-- C6 witness: the amended statement at a concrete 2-hour-old lock. -/
theorem mediabox_c6_witness :
    cleanupStaleLock 21600 7200 (some lockC6) = some lockC6 ∧
      isLockedRun 1800 7200 (some lockC6) = (false, none) ∧
      ∀ ourId, acquireNoWait 1800 7200 ourId (some lockC6) = (false, none) :=
  mediabox_c6_amended lockC6 7200 (by decide) (by decide)

/-! ## C7 — handling of a nonzero encoder exit -/

/-- C7 counterexample: at exit code 1 the failure branch only logs and releases
the lock; the temporary output file is NOT removed and no `processing_error`
record is written to the cache — the claim said both happen. -/
theorem mediabox_c7_counterexample :
    encoderExitEffects 1 true false false true = [ExecEffect.logFailure, ExecEffect.releaseLock] ∧
      ExecEffect.removeTempFile ∉ encoderExitEffects 1 true false false true ∧
      ExecEffect.recordProcessingError ∉ encoderExitEffects 1 true false false true ∧
      ExecEffect.dbUpdateSuccess ∉ encoderExitEffects 1 true false false true := by
  decide

/-- C7 amended: when the spawned encoder exits with a nonzero status, the
failure is only logged and the lock is released; `transcode_file` returns
normally so the batch continues with the next file, but the temporary output
file is not removed at that point (it stays registered for the process-exit
cleanup handler) and the cache entry is not updated — even though
`update_after_conversion`'s failure branch, which is never invoked here,
would have recorded a `processing_error`. -/
theorem mediabox_c7_amended (returncode : Int)
    (outputNeFinal finalExists resolutionRenamed inputNeFinal : Bool)
    (h : returncode ≠ 0) :
    encoderExitEffects returncode outputNeFinal finalExists resolutionRenamed inputNeFinal =
        [ExecEffect.logFailure, ExecEffect.releaseLock] ∧
      ExecEffect.removeTempFile ∉
        encoderExitEffects returncode outputNeFinal finalExists resolutionRenamed inputNeFinal ∧
      ExecEffect.recordProcessingError ∉
        encoderExitEffects returncode outputNeFinal finalExists resolutionRenamed inputNeFinal ∧
      ∀ (entry : CacheEntry) (msg nowIso : String),
        (updateEntryFailure entry msg nowIso).processing_error = some msg := by
  have hfalse : (returncode == 0) = false := by
    simpa using h
  refine ⟨?_, ?_, ?_, fun entry msg nowIso => rfl⟩ <;>
    simp [encoderExitEffects, hfalse]

/-- C7 witness: the amended statement at exit code 2. -/
theorem mediabox_c7_witness :
    encoderExitEffects 2 true true false true =
        [ExecEffect.logFailure, ExecEffect.releaseLock] ∧
      ExecEffect.removeTempFile ∉ encoderExitEffects 2 true true false true ∧
      ExecEffect.recordProcessingError ∉ encoderExitEffects 2 true true false true ∧
      ∀ (entry : CacheEntry) (msg nowIso : String),
        (updateEntryFailure entry msg nowIso).processing_error = some msg :=
  mediabox_c7_amended 2 true true false true (by decide)

/-! ## C8 — cache lookup and `processing_version` -/

/-- Overwriting the stored version field of every entry. -/
def setEntryVersion (v : Option String) (entry : CacheEntry) : CacheEntry :=
  { entry with processing_version := v }

lemma lookup_map_setEntryVersion (v : Option String) (h : String) :
    ∀ cd : List (String × CacheEntry),
      (cd.map (fun p => (p.1, setEntryVersion v p.2))).lookup h =
        (cd.lookup h).map (setEntryVersion v) := by
  intro cd
  induction cd with
  | nil => rfl
  | cons p rest ih =>
    by_cases hp : h = p.1
    · simp [List.lookup, hp]
    · have hb : (h == p.1) = false := by simpa using hp
      simp [List.lookup, hb, ih]

lemma reconstructProbe_setEntryVersion (v : Option String) (entry : CacheEntry) :
    reconstructProbe (setEntryVersion v entry) = reconstructProbe entry := rfl

/-- A stale-versioned but otherwise complete entry. -/
def entryC8 : CacheEntry :=
  { codec_video := some "h264", codec_audio := some "aac", width := some 1920,
    height := some 1080, audio_channels := some "2", audio_layout := some "stereo",
    processing_version := some "0.9.9", action := some "skip" }

def cacheC8 : List (String × CacheEntry) := [("abc123", entryC8)]

/-- C8 counterexample: an entry whose stored `processing_version` (`0.9.9`)
differs from the current `MEDIA_DATABASE_VERSION` (`1.0.0`) is still
returned by the cache lookup — the claim said a version mismatch returns
None. -/
theorem mediabox_c8_counterexample :
    entryC8.processing_version = some "0.9.9" ∧
      some "0.9.9" ≠ some MEDIA_DATABASE_VERSION ∧
      hasCachedProbe (some "abc123") cacheC8 = true ∧
      (getCachedProbe (some "abc123") cacheC8).isSome = true := by
  decide

/-- C8 amended: the cache lookup returns None exactly when the fingerprint is
missing, the directory cache is absent/empty, or the entry for the
fingerprint is missing; the stored `processing_version` is never consulted —
rewriting it in every entry changes neither `get_cached_probe` nor
`has_cached_probe`. -/
theorem mediabox_c8_amended :
    (∀ cd, getCachedProbe none cd = none) ∧
      (∀ fp, getCachedProbe fp [] = none) ∧
      (∀ h cd, List.lookup h cd = (none : Option CacheEntry) →
        getCachedProbe (some h) cd = none) ∧
      (∀ fp cd v,
        getCachedProbe fp (cd.map (fun p => (p.1, setEntryVersion v p.2))) =
          getCachedProbe fp cd ∧
        hasCachedProbe fp (cd.map (fun p => (p.1, setEntryVersion v p.2))) =
          hasCachedProbe fp cd) := by
  refine ⟨fun cd => rfl, fun fp => ?_, fun h cd hl => ?_, fun fp cd v => ?_⟩
  · cases fp <;> rfl
  · cases cd with
    | nil => rfl
    | cons p rest => simp [getCachedProbe, hl]
  · cases fp with
    | none => exact ⟨rfl, rfl⟩
    | some h =>
      have hemp : (cd.map (fun p => (p.1, setEntryVersion v p.2))).isEmpty = cd.isEmpty := by
        cases cd <;> rfl
      have hlk := lookup_map_setEntryVersion v h cd
      constructor
      · simp only [getCachedProbe, hemp, hlk]
        cases cd.lookup h with
        | none => rfl
        | some e => rfl
      · simp only [hasCachedProbe, hemp, hlk]
        cases cd.lookup h with
        | none => rfl
        | some e => rfl

/-- C8 witness: the amended statement's missing-entry case at a concrete
cache. -/
theorem mediabox_c8_witness :
    getCachedProbe (some "zz") [("abc123", entryC8)] = none :=
  mediabox_c8_amended.2.2.1 "zz" [("abc123", entryC8)] (by decide)

/-! ## C9 — idempotence of the resolution rewrite -/

/-- C9 counterexample: `Movie 2160p` rewrites to `Movie 1080p`, but applying
the rewrite again yields `Movie 1080p 1080p` — the function is not idempotent
on already-tagged stems. -/
theorem mediabox_c9_counterexample :
    updateStem "1080p" "Movie 2160p" = "Movie 1080p" ∧
      updateStem "1080p" (updateStem "1080p" "Movie 2160p") ≠
        updateStem "1080p" "Movie 2160p" := by
  decide

lemma length_updateStem_of_patterns_fixed (name : String)
    (h : resolutionPatternsApply "1080p" name = name) :
    (updateStem "1080p" name).length = name.length + 6 := by
  unfold updateStem
  rw [h]
  have hcond : (name == name) = true := by
    exact beq_self_eq_true name
  rw [hcond, if_pos rfl]
  cases hq : findQuality name with
  | none =>
    rw [String.length_append, String.length_append]
    have h1 : (" " : String).length = 1 := rfl
    have h2 : ("1080p" : String).length = 5 := rfl
    omega
  | some pos =>
    show (List.take pos name.data ++ ("1080p" ++ " ").data ++ List.drop pos name.data).length
      = name.length + 6
    rw [List.length_append, List.length_append, List.length_take, List.length_drop]
    have h1 : (("1080p" ++ " " : String)).data.length = 6 := rfl
    have h2 : name.length = name.data.length := rfl
    omega

/-- C9 amended: the rewrite is NOT idempotent.  On any stem the resolution
patterns leave unchanged — in particular any stem already tagged `1080p`,
including the output of a previous rewrite — the function inserts another
`1080p ` before the first quality tag, or appends ` 1080p`, growing the stem
by six characters, so reapplying it always changes the name. -/
theorem mediabox_c9_amended (name : String)
    (h : resolutionPatternsApply "1080p" name = name) :
    (updateStem "1080p" name).length = name.length + 6 ∧
      updateStem "1080p" name ≠ name := by
  have hlen := length_updateStem_of_patterns_fixed name h
  refine ⟨hlen, fun heq => ?_⟩
  rw [heq] at hlen
  omega

/-- C9 witness: the amended statement at the already-tagged stem
`Movie 1080p`. -/
theorem mediabox_c9_witness :
    (updateStem "1080p" "Movie 1080p").length = ("Movie 1080p" : String).length + 6 ∧
      updateStem "1080p" "Movie 1080p" ≠ "Movie 1080p" :=
  mediabox_c9_amended "Movie 1080p" (by decide)

/-! ## C10 — shape of every cache-reconstructed probe -/

lemma reconstructProbe_shape (entry : CacheEntry) (q : Probe)
    (h : reconstructProbe entry = some q) :
    (q.filter (fun s => s.codec_type == "video")).length ≤ 1 ∧
      (q.filter (fun s => s.codec_type == "audio")).length ≤ 1 ∧
      (q.filter (fun s => s.codec_type == "subtitle")).length = 0 ∧
      ∀ s ∈ q, s.codec_type = "video" → s.pix_fmt = some "yuv420p" := by
  unfold reconstructProbe at h
  split at h
  · split at h
    · exact absurd h (by simp)
    · rename_i n _
      have hq : q = cachedVideoStreams entry ++
          [{ index := 1, codec_type := "audio", codec_name := entry.codec_audio.getD "",
              channels := some n,
              channel_layout := some (entry.audio_layout.getD "stereo") }] := by
        exact (Option.some.injEq _ _ ▸ h).symm
      subst hq
      unfold cachedVideoStreams
      split <;> refine ⟨by simp, by simp, by simp, ?_⟩ <;> intro s hs hv
      · rcases List.mem_cons.mp hs with rfl | hs'
        · rfl
        · simp at hs'
          subst hs'
          exact absurd hv (by simp)
      · simp at hs
        subst hs
        exact absurd hv (by simp)
  · have hq : q = cachedVideoStreams entry := by
      exact (Option.some.injEq _ _ ▸ h).symm
    subst hq
    unfold cachedVideoStreams
    split <;> refine ⟨by simp, by simp, by simp, ?_⟩ <;> intro s hs hv
    · simp at hs
      subst hs
      rfl
    · simp at hs

/-- C10: every probe a cache hit reconstructs contains at most one video
stream, at most one audio stream, never a subtitle stream, and every video
stream in it carries the constant pixel format `yuv420p` (so subtitle
streams, extra audio streams, and the file's real bit depth are invisible to
the decision logic on the cached path). -/
theorem mediabox_c10_cached_probe_shape (fp : Option String)
    (cd : List (String × CacheEntry)) (q : Probe)
    (h : getCachedProbe fp cd = some q) :
    (q.filter (fun s => s.codec_type == "video")).length ≤ 1 ∧
      (q.filter (fun s => s.codec_type == "audio")).length ≤ 1 ∧
      (q.filter (fun s => s.codec_type == "subtitle")).length = 0 ∧
      ∀ s ∈ q, s.codec_type = "video" → s.pix_fmt = some "yuv420p" := by
  unfold getCachedProbe at h
  cases fp with
  | none => exact absurd h (by simp)
  | some hsh =>
    cases hemp : cd.isEmpty with
    | true =>
      rw [hemp] at h
      exact absurd h (by simp)
    | false =>
      rw [hemp] at h
      simp only [Bool.false_eq_true, if_false] at h
      cases hlk : List.lookup hsh cd with
      | none =>
        rw [hlk] at h
        exact absurd h (by simp)
      | some entry =>
        rw [hlk] at h
        exact reconstructProbe_shape entry q h

/-- A full entry for the C10 witness. -/
def entryC10 : CacheEntry :=
  { codec_video := some "hevc", codec_audio := some "dts", width := some 3840,
    height := some 2160, audio_channels := some "8", audio_layout := some "7.1",
    color_transfer := some "smpte2084", processing_version := some "1.0.0" }

def probeC10 : Probe :=
  [{ index := 0, codec_type := "video", codec_name := "hevc", width := some 3840,
      height := some 2160, pix_fmt := some "yuv420p", color_transfer := some "smpte2084",
      color_primaries := some "", color_space := some "" },
    { index := 1, codec_type := "audio", codec_name := "dts", channels := some 8,
      channel_layout := some "7.1" }]

/-- C10 witness: the theorem applied to a concrete cache hit. -/
theorem mediabox_c10_witness :
    (probeC10.filter (fun s => s.codec_type == "video")).length ≤ 1 ∧
      (probeC10.filter (fun s => s.codec_type == "audio")).length ≤ 1 ∧
      (probeC10.filter (fun s => s.codec_type == "subtitle")).length = 0 ∧
      ∀ s ∈ probeC10, s.codec_type = "video" → s.pix_fmt = some "yuv420p" :=
  mediabox_c10_cached_probe_shape (some "fp10") [("fp10", entryC10)] probeC10 (by decide)

/-! ## C3 — surround selection policy -/

lemma surroundCandidates_find (probe : Probe) (lang : String) :
    (surroundCandidates probe).find? (fun c => c.2 == lang) =
      ((probe.filter (fun s => s.codec_type == "audio" && streamChannels s ≥ 6)).find?
        (fun s => streamLang s == lang)).map (fun s => (s.index, streamLang s)) := by
  unfold surroundCandidates
  rw [List.find?_map]
  rfl

/-- C3: surround selection considers exactly the audio streams with at least
six channels; it picks the first English candidate, else the first candidate
with an empty/absent language tag, else none — and a selected surround stream
is always tagged `eng` or untagged, never non-English. -/
theorem mediabox_c3_surround_selection (probe : Probe) :
    (surroundIdx probe =
      (((probe.filter (fun s => s.codec_type == "audio" && streamChannels s ≥ 6)).find?
          (fun s => streamLang s == "eng")).orElse
        (fun _ =>
          (probe.filter (fun s => s.codec_type == "audio" && streamChannels s ≥ 6)).find?
            (fun s => streamLang s == ""))).map (fun s => s.index)) ∧
      ∀ i, surroundIdx probe = some i →
        ∃ s, s ∈ probe ∧ s.index = i ∧ s.codec_type = "audio" ∧
          (6 : Int) ≤ streamChannels s ∧ (streamLang s = "eng" ∨ streamLang s = "") := by
  have hmem : ∀ (lang : String) (s : Stream),
      (probe.filter (fun s => s.codec_type == "audio" && streamChannels s ≥ 6)).find?
          (fun s => streamLang s == lang) = some s →
        s ∈ probe ∧ s.codec_type = "audio" ∧ (6 : Int) ≤ streamChannels s ∧
          streamLang s = lang := by
    intro lang s hf
    have hm := List.mem_filter.mp (List.mem_of_find?_eq_some hf)
    have hp := List.find?_some hf
    refine ⟨hm.1, ?_, ?_, by simpa using hp⟩
    · have := hm.2
      simp only [Bool.and_eq_true, beq_iff_eq, decide_eq_true_eq] at this
      exact this.1
    · have := hm.2
      simp only [Bool.and_eq_true, beq_iff_eq, decide_eq_true_eq] at this
      exact this.2
  constructor
  · unfold surroundIdx
    rw [surroundCandidates_find, surroundCandidates_find]
    cases he : (probe.filter (fun s => s.codec_type == "audio" && streamChannels s ≥ 6)).find?
        (fun s => streamLang s == "eng") with
    | some s => simp [Option.orElse]
    | none =>
      cases hu : (probe.filter (fun s => s.codec_type == "audio" && streamChannels s ≥ 6)).find?
          (fun s => streamLang s == "") with
      | some s => simp [Option.orElse]
      | none => simp [Option.orElse]
  · intro i hi
    unfold surroundIdx at hi
    rw [surroundCandidates_find, surroundCandidates_find] at hi
    cases he : (probe.filter (fun s => s.codec_type == "audio" && streamChannels s ≥ 6)).find?
        (fun s => streamLang s == "eng") with
    | some s =>
      rw [he] at hi
      have hi' : s.index = i := by
        simpa using hi
      obtain ⟨hmem1, hty, hch, hlang⟩ := hmem "eng" s he
      exact ⟨s, hmem1, hi', hty, hch, Or.inl hlang⟩
    | none =>
      rw [he] at hi
      cases hu : (probe.filter (fun s => s.codec_type == "audio" && streamChannels s ≥ 6)).find?
          (fun s => streamLang s == "") with
      | some s =>
        rw [hu] at hi
        have hi' : s.index = i := by
          simpa using hi
        obtain ⟨hmem1, hty, hch, hlang⟩ := hmem "" s hu
        exact ⟨s, hmem1, hi', hty, hch, Or.inr hlang⟩
      | none =>
        rw [hu] at hi
        simp at hi

/-! ## C4 — the 6-channel unknown-layout channelmap fix -/

lemma addFilterLeg_prefix_exists (pre f : String) {o : Option String}
    (h : ∃ r, o = some (pre ++ r)) :
    ∃ r, addFilterLeg o f = some (pre ++ r) := by
  rcases h with ⟨r, rfl⟩
  exact ⟨r ++ "; " ++ f, by simp [addFilterLeg, String.append_assoc]⟩

/-- C4: the channelmap fix fires exactly for a selected surround stream with
six channels and an empty/`unknown` layout; when it does, the
`channelmap=0-FL|1-FR|2-FC|3-LFE|4-BL|5-BR:5.1` filter leads the
`-filter_complex` graph, the surround is mapped through `[fixed_surround]`
(the filter output), and output audio stream 0 is re-encoded to AAC rather
than stream-copied. -/
theorem mediabox_c4_channelmap_fix (probe : Probe) (force_stereo : Bool) (sidx : Nat)
    (h : surroundIdx probe = some sidx) :
    (needsChannelmapFix probe sidx = true ↔
      ∃ s ∈ probe, s.index = sidx ∧ s.codec_type = "audio" ∧ streamChannels s = 6 ∧
        (layoutDUnknown s = "unknown" ∨ layoutDUnknown s = "")) ∧
      (needsChannelmapFix probe sidx = true →
        (∃ r, (audioSection probe force_stereo).2.2 = some (channelmapFilter sidx ++ r)) ∧
          (audioSection probe force_stereo).1.take 2 = ["-map", "[fixed_surround]"] ∧
          (codecArgsAux probe (audioSection probe force_stereo).1 0).1.take 4 =
            ["-c:a:0", "aac", "-b:a:0", AAC_BITRATE_CBR]) := by
  constructor
  · unfold needsChannelmapFix
    simp only [List.any_eq_true, Bool.and_eq_true, beq_iff_eq, Bool.or_eq_true]
    constructor
    · rintro ⟨s, hs, ⟨⟨⟨h1, h2⟩, h4⟩, h3⟩⟩
      exact ⟨s, hs, h1, h2, h3, h4⟩
    · rintro ⟨s, hs, h1, h2, h3, h4⟩
      exact ⟨s, hs, ⟨⟨⟨h1, h2⟩, h4⟩, h3⟩⟩
  · intro hfix
    have hbase : ∃ r, (some (channelmapFilter sidx) : Option String) =
        some (channelmapFilter sidx ++ r) :=
      ⟨"", by simp⟩
    have hc1 : csPref "0:".data "[fixed_surround]".data = false := by decide
    have hc2 : csPref "[".data "[fixed_surround]".data = true := by decide
    have haout : ("[fixed_surround]" == "[aout]") = false := by decide
    cases h51 : (analyzeSurround probe sidx force_stereo).should_create_51_from_71 with
    | true =>
      cases hst : (analyzeSurround probe sidx force_stereo).should_create_stereo with
      | true =>
        refine ⟨?_, ?_, ?_⟩ <;>
          simp [audioSection, h, hfix, h51, hst, codecArgsAux, hc1, hc2,
            filterMapCodecArgs, haout, List.take,
            addFilterLeg_prefix_exists _ _ (addFilterLeg_prefix_exists _ _ hbase)] <;>
          exact ⟨by decide, by decide⟩
      | false =>
        refine ⟨?_, ?_, ?_⟩ <;>
          simp [audioSection, h, hfix, h51, hst, codecArgsAux, hc1, hc2,
            filterMapCodecArgs, haout, List.take,
            addFilterLeg_prefix_exists _ _ hbase] <;>
          exact ⟨by decide, by decide⟩
    | false =>
      cases hst : (analyzeSurround probe sidx force_stereo).should_create_stereo with
      | true =>
        refine ⟨?_, ?_, ?_⟩ <;>
          simp [audioSection, h, hfix, h51, hst, codecArgsAux, hc1, hc2,
            filterMapCodecArgs, haout, List.take,
            addFilterLeg_prefix_exists _ _ hbase] <;>
          exact ⟨by decide, by decide⟩
      | false =>
        refine ⟨?_, ?_, ?_⟩ <;>
          simp [audioSection, h, hfix, h51, hst, codecArgsAux, hc1, hc2,
            filterMapCodecArgs, haout, List.take, hbase] <;>
          first
            | exact ⟨"", by simp⟩
            | exact ⟨by decide, by decide⟩

/-- A probe with a 6-channel empty-layout English surround stream
(spec scenario C), for the C4 witness. -/
def probeC4 : Probe :=
  [{ index := 0, codec_type := "video", codec_name := "h264", width := some 1920,
      height := some 1080, pix_fmt := some "yuv420p" },
    { index := 1, codec_type := "audio", codec_name := "dts", channels := some 6,
      channel_layout := some "", language := some "eng" }]

/-- C4 witness: the theorem applied to the scenario-C probe, whose selected
surround stream is index 1. -/
theorem mediabox_c4_witness :
    (needsChannelmapFix probeC4 1 = true ↔
      ∃ s ∈ probeC4, s.index = 1 ∧ s.codec_type = "audio" ∧ streamChannels s = 6 ∧
        (layoutDUnknown s = "unknown" ∨ layoutDUnknown s = "")) ∧
      (needsChannelmapFix probeC4 1 = true →
        (∃ r, (audioSection probeC4 false).2.2 = some (channelmapFilter 1 ++ r)) ∧
          (audioSection probeC4 false).1.take 2 = ["-map", "[fixed_surround]"] ∧
          (codecArgsAux probeC4 (audioSection probeC4 false).1 0).1.take 4 =
            ["-c:a:0", "aac", "-b:a:0", AAC_BITRATE_CBR]) :=
  mediabox_c4_channelmap_fix probeC4 false 1 (by decide)

/-! ## C1 — the video skip decision -/

lemma allAac_iff (probe : Probe) :
    allAac probe = true ↔ ∀ s ∈ probe, s.codec_type = "audio" → s.codec_name = "aac" := by
  unfold allAac
  simp only [List.all_eq_true, List.mem_map, List.mem_filter, Bool.and_eq_true,
    beq_iff_eq, forall_exists_index, and_imp]
  constructor
  · intro hall s hs hty
    exact hall s.codec_name s hs hty rfl
  · rintro hall c s hs hty rfl
    exact hall s hs hty

lemma needsAudioMetadataFix_false_iff (probe : Probe) :
    needsAudioMetadataFix probe = false ↔
      ∀ s ∈ probe, s.codec_type = "audio" → streamLang s ≠ "" ∧ streamLang s ≠ "und" := by
  unfold needsAudioMetadataFix
  rw [← Bool.not_eq_true, List.any_eq_true]
  simp only [Bool.and_eq_true, beq_iff_eq, Bool.or_eq_true, not_exists]
  constructor
  · intro hno s hs hty
    constructor
    · intro he
      exact hno s ⟨hs, hty, Or.inl he⟩
    · intro he
      exact hno s ⟨hs, hty, Or.inr he⟩
  · rintro hall s ⟨hs, hty, he | he⟩
    · exact (hall s hs hty).1 he
    · exact (hall s hs hty).2 he

lemma hasNonEnglishAudio_false_iff (probe : Probe) :
    hasNonEnglishAudio probe = false ↔
      ∀ s ∈ probe, s.codec_type = "audio" →
        streamLang s = "eng" ∨ streamLang s = "und" ∨ streamLang s = "" := by
  unfold hasNonEnglishAudio
  rw [← Bool.not_eq_true, List.any_eq_true]
  simp only [Bool.and_eq_true, beq_iff_eq, bne_iff_ne, ne_eq, not_exists]
  constructor
  · intro hno s hs hty
    by_cases h1 : streamLang s = ""
    · exact Or.inr (Or.inr h1)
    · by_cases h2 : streamLang s = "eng"
      · exact Or.inl h2
      · by_cases h3 : streamLang s = "und"
        · exact Or.inr (Or.inl h3)
        · exact absurd ⟨hs, ⟨⟨⟨hty, h1⟩, h2⟩, h3⟩⟩ (hno s)
  · rintro hall s ⟨hs, ⟨⟨⟨hty, h1⟩, h2⟩, h3⟩⟩
    rcases hall s hs hty with h | h | h
    · exact h2 h
    · exact h3 h
    · exact h1 h

lemma needsResolutionDowngrade_false_iff (probe : Probe) (downgrade : Bool) :
    needsResolutionDowngrade probe downgrade = false ↔
      ¬(downgrade = true ∧ ∃ v, firstVideo probe = some v ∧
        (1080 < v.height.getD 0 ∨ 1920 < v.width.getD 0)) := by
  unfold needsResolutionDowngrade
  cases downgrade with
  | false => simp
  | true =>
    cases hv : firstVideo probe with
    | none => simp [hv]
    | some v =>
      simp only [Bool.true_and, true_and, hv, Option.some.injEq]
      constructor
      · intro hfalse ⟨w, hw, hcmp⟩
        subst hw
        simp only [Bool.or_eq_true, decide_eq_true_eq] at hfalse
        rcases hcmp with h | h
        · rw [Bool.or_eq_false_iff] at hfalse
          exact absurd h (by simpa using hfalse.1)
        · rw [Bool.or_eq_false_iff] at hfalse
          exact absurd h (by simpa using hfalse.2)
      · intro hno
        rw [Bool.or_eq_false_iff]
        constructor
        · by_contra hc
          exact hno ⟨v, rfl, Or.inl (by simpa using hc)⟩
        · by_contra hc
          exact hno ⟨v, rfl, Or.inr (by simpa using hc)⟩

/-- C1: a probed video file is skipped iff the video codec is `h264`, every
audio codec is `aac`, the container is `.mp4`/`.mkv`, no stereo track and no
5.1-from-7.1 track needs creating, no audio stream is unlabeled
(`''`/`und`), no audio stream carries a non-English tag, `force_stereo` is
off, and no resolution downgrade is required. -/
theorem mediabox_c1_skip_iff (probe : Probe) (input_file : String)
    (force_stereo downgrade : Bool) :
    skipDecision probe input_file force_stereo downgrade = true ↔
      (vcodecOf probe = some "h264" ∧
        (∀ s ∈ probe, s.codec_type = "audio" → s.codec_name = "aac") ∧
        (lowerEndsWith input_file ".mp4" = true ∨ lowerEndsWith input_file ".mkv" = true) ∧
        needsStereoTrack probe force_stereo = false ∧
        needs51From71 probe = false ∧
        (∀ s ∈ probe, s.codec_type = "audio" → streamLang s ≠ "" ∧ streamLang s ≠ "und") ∧
        (∀ s ∈ probe, s.codec_type = "audio" →
          streamLang s = "eng" ∨ streamLang s = "und" ∨ streamLang s = "") ∧
        force_stereo = false ∧
        ¬(downgrade = true ∧ ∃ v, firstVideo probe = some v ∧
          (1080 < v.height.getD 0 ∨ 1920 < v.width.getD 0))) := by
  unfold skipDecision
  simp only [Bool.and_eq_true, decide_eq_true_eq, Bool.or_eq_true, Bool.not_eq_true']
  rw [allAac_iff, needsAudioMetadataFix_false_iff, hasNonEnglishAudio_false_iff,
    needsResolutionDowngrade_false_iff]
  tauto

/-! ## C2 — HDR forces software encoding with the tone-map chain -/

/-- The six tone-mapping stages joined with commas. -/
def tonemapChainStr : String :=
  "zscale=t=linear:npl=100,format=gbrpf32le,zscale=p=bt709," ++
    "tonemap=tonemap=hable:desat=0,zscale=t=bt709:m=bt709:r=tv,format=yuv420p"

lemma scaleDecision_cases (probe : Probe) (downgrade : Bool) :
    scaleDecision probe downgrade = none ∨
      scaleDecision probe downgrade = some "scale=-2:1080" ∨
      scaleDecision probe downgrade = some "scale=1920:-2" := by
  unfold scaleDecision
  cases downgrade with
  | false => exact Or.inl rfl
  | true =>
    cases hv : firstVideo probe with
    | none => exact Or.inl rfl
    | some v =>
      by_cases h1 : v.height.getD 0 > 1080
      · simp [h1]
      · by_cases h2 : v.width.getD 0 > 1920
        · simp [h1, h2]
        · simp [h1, h2]

/-- C2: whenever the probe is classified as HDR, the emitted video arguments
use the software encoder `libx264` (regardless of any detected VAAPI
capability), the `-vf` chain contains every tone-mapping stage, and those
video arguments appear verbatim inside the full emitted command. -/
theorem mediabox_c2_hdr_forces_software_tonemap (probe : Probe) (hw : Hwaccel)
    (force_stereo downgrade : Bool) (h : (detectHdrVideo probe).is_hdr = true) :
    ∃ vf, videoArgsFor probe hw downgrade =
        ["-c:v", "libx264", "-vf", vf, "-crf", "23", "-preset", "medium"] ∧
      (∀ stage ∈ tonemapStages, stage ∈ splitChar ',' vf) ∧
      ∃ pre post, (buildFfmpegCommand probe force_stereo downgrade hw).1 =
        pre ++ videoArgsFor probe hw downgrade ++ post := by
  have hcmd : (buildFfmpegCommand probe force_stereo downgrade hw).1 =
      commandPrefixArgs probe force_stereo ++ videoArgsFor probe hw downgrade ++
        commandSuffixArgs probe force_stereo := rfl
  rcases scaleDecision_cases probe downgrade with h1 | h1 | h1
  · have hv : videoArgsFor probe hw downgrade =
        ["-c:v", "libx264", "-vf", tonemapChainStr, "-crf", "23", "-preset", "medium"] := by
      unfold videoArgsFor buildHdrTonemapFilter
      rw [h, h1]
      simp only [Bool.not_true, Bool.false_eq_true, if_false, if_true]
      decide
    exact ⟨tonemapChainStr, hv, by decide, _, _, hcmd⟩
  · have hv : videoArgsFor probe hw downgrade =
        ["-c:v", "libx264", "-vf", tonemapChainStr ++ ",scale=w=-2:h=1080",
          "-crf", "23", "-preset", "medium"] := by
      unfold videoArgsFor buildHdrTonemapFilter
      rw [h, h1]
      simp only [Bool.not_true, Bool.false_eq_true, if_false, if_true]
      decide
    exact ⟨tonemapChainStr ++ ",scale=w=-2:h=1080", hv, by decide, _, _, hcmd⟩
  · have hv : videoArgsFor probe hw downgrade =
        ["-c:v", "libx264", "-vf", tonemapChainStr ++ ",scale=w=1920:h=-2",
          "-crf", "23", "-preset", "medium"] := by
      unfold videoArgsFor buildHdrTonemapFilter
      rw [h, h1]
      simp only [Bool.not_true, Bool.false_eq_true, if_false, if_true]
      decide
    exact ⟨tonemapChainStr ++ ",scale=w=1920:h=-2", hv, by decide, _, _, hcmd⟩

/-- An HLG HDR probe, used with a VAAPI-capable host for the C2 witness. -/
def probeC2 : Probe :=
  [{ index := 0, codec_type := "video", codec_name := "hevc", width := some 1920,
      height := some 1080, pix_fmt := some "yuv420p10le",
      color_transfer := some "arib-std-b67", color_primaries := some "bt2020",
      color_space := some "bt2020nc" },
    { index := 1, codec_type := "audio", codec_name := "aac", channels := some 2,
      channel_layout := some "stereo", language := some "eng" }]

def hwVaapi : Hwaccel :=
  { method := "vaapi", encoder := "h264_vaapi", extra_args := [] }

/-- C2 witness: the theorem applied to a concrete HLG probe on a host whose
capability probe reports VAAPI. -/
theorem mediabox_c2_witness :
    ∃ vf, videoArgsFor probeC2 hwVaapi false =
        ["-c:v", "libx264", "-vf", vf, "-crf", "23", "-preset", "medium"] ∧
      (∀ stage ∈ tonemapStages, stage ∈ splitChar ',' vf) ∧
      ∃ pre post, (buildFfmpegCommand probeC2 false false hwVaapi).1 =
        pre ++ videoArgsFor probeC2 hwVaapi false ++ post :=
  mediabox_c2_hdr_forces_software_tonemap probeC2 hwVaapi false false (by decide)

/-! ## C5 — HDR10 + downgrade: the emitted video arguments -/

def vidC5 : Stream :=
  { index := 0, codec_type := "video", codec_name := "hevc", width := some 3840,
    height := some 2160, pix_fmt := some "yuv420p10le",
    color_transfer := some "smpte2084", color_primaries := some "bt2020",
    color_space := some "bt2020nc" }

def probeC5 : Probe := [vidC5]

/-- C5 counterexample: for an HDR10 source with `downgrade_resolution` and
height over 1080, the emitted `-vf` value ends in the rewritten leg
`scale=w=-2:h=1080` — not the verbatim `scale=-2:1080` the claim states. -/
theorem mediabox_c5_counterexample :
    (videoArgsFor probeC5 {} true).get? 3 =
        some (tonemapChainStr ++ ",scale=w=-2:h=1080") ∧
      (videoArgsFor probeC5 {} true).get? 3 ≠
        some (tonemapChainStr ++ ",scale=-2:1080") := by
  decide

/-- C5 amended: for an HDR10 source (`color_transfer=smpte2084`) with
`downgrade_resolution` set and source height above 1080, the video arguments
are `-c:v libx264 -vf "<tone-map chain>,scale=w=-2:h=1080" -crf 23 -preset
medium` — the scaling leg is rewritten by `build_hdr_tonemap_filter` to
`scale=w=-2:h=1080` rather than appended verbatim. -/
theorem mediabox_c5_amended (probe : Probe) (hw : Hwaccel) (v : Stream)
    (h1 : firstVideo probe = some v) (h2 : v.color_transfer = some "smpte2084")
    (h3 : 1080 < v.height.getD 0) :
    videoArgsFor probe hw true =
      ["-c:v", "libx264", "-vf", tonemapChainStr ++ ",scale=w=-2:h=1080",
        "-crf", "23", "-preset", "medium"] := by
  have hhdr : (detectHdrVideo probe).is_hdr = true := by
    unfold detectHdrVideo
    rw [h1]
    simp only [h2, Option.getD_some]
    split <;> rfl
  have hscale : scaleDecision probe true = some "scale=-2:1080" := by
    unfold scaleDecision
    rw [h1]
    simp [h3]
  unfold videoArgsFor buildHdrTonemapFilter
  rw [hhdr, hscale]
  simp only [Bool.not_true, Bool.false_eq_true, if_false, if_true]
  decide

/-- C5 witness: the amended statement at a concrete 4K HDR10 probe. -/
theorem mediabox_c5_witness :
    videoArgsFor probeC5 {} true =
      ["-c:v", "libx264", "-vf", tonemapChainStr ++ ",scale=w=-2:h=1080",
        "-crf", "23", "-preset", "medium"] :=
  mediabox_c5_amended probeC5 {} vidC5 rfl rfl (by decide)

end Mediabox
